import Mathlib

/-!
Shallow embedding of the MobileNetV3-Small architecture-assembly code
(`templates/mobilenetV3/experiment.py`) together with proofs of the
specified properties: the channel quantizer `_make_divisible`, block
configuration (`InvertedResidualConfig`), inverted-residual block
construction and forward, squeeze-and-excitation gating, whole-network
assembly with its shape propagation, and the pretrained-weight
transplant rule.

Python integers are modelled as `ℤ`, Python floats as `ℚ` (exact real
arithmetic), Python `//` as floor division `Int.fdiv`, Python `int()`
conversion as truncation toward zero, and code that can `raise` as
`Except String`.
-/

namespace MV3

/-- Python's `int(q)` conversion of a real (rational) value: truncation
toward zero. -/
def pyInt (q : ℚ) : ℤ := if 0 ≤ q then ⌊q⌋ else ⌈q⌉

/-- Python's `//` (floor division) on integers. -/
def pyFloorDiv (a b : ℤ) : ℤ := Int.fdiv a b

/-- Python's `str.startswith`: the characters of the pattern are a
prefix of the characters of the string. -/
def pyStartsWith (s p : String) : Bool := p.data.isPrefixOf s.data

/-- `_make_divisible(v, divisor, min_value=None)` from the source
(experiment.py lines 17-27): `min_value` defaults to `divisor`;
`new_v = max(min_value, int(v + divisor / 2) // divisor * divisor)`;
if `new_v < 0.9 * v` then `new_v += divisor`; return `new_v`. -/
def _make_divisible (v : ℚ) (divisor : ℤ) (min_value : Option ℤ) : ℤ :=
  let mv := min_value.getD divisor
  let new_v := max mv (pyFloorDiv (pyInt (v + (divisor : ℚ) / 2)) divisor * divisor)
  if (new_v : ℚ) < 9 / 10 * v then new_v + divisor else new_v

/-- The spec's quantizer algorithm (spec section 4.1), stated from the
spec's words: `candidate = max(min_value, floor((v + divisor/2) / divisor) * divisor)`;
if `candidate < 0.9 * v`, return `candidate + divisor`, else return
`candidate`; `min_value` defaults to `divisor`. -/
def specQuantize (v : ℚ) (divisor : ℤ) : ℤ :=
  let candidate := max divisor (⌊(v + (divisor : ℚ) / 2) / (divisor : ℚ)⌋ * divisor)
  if (candidate : ℚ) < 9 / 10 * v then candidate + divisor else candidate

/-- The two activation-layer kinds appearing in the network
(`nn.ReLU` and `nn.Hardswish`). -/
inductive ActKind
  | relu
  | hardswish
deriving Repr, DecidableEq

/-- The state of a `ConvNormActivation` block (experiment.py lines
58-100) after `__init__`: the convolution parameters with defaults
resolved, whether a normalization layer is present, and which activation
layer (if any) follows. -/
structure ConvNormActivation where
  in_channels : ℤ
  out_channels : ℤ
  kernel_size : ℤ
  stride : ℤ
  padding : ℤ
  dilation : ℤ
  groups : ℤ
  useNorm : Bool
  activation_layer : Option ActKind
  bias : Bool
deriving Repr, DecidableEq

/-- `ConvNormActivation.__init__`: when `padding` is `None` it defaults
to `(kernel_size - 1) // 2 * dilation`; when `bias` is `None` it
defaults to "no normalization layer present". -/
def ConvNormActivation.make (in_channels out_channels kernel_size stride : ℤ)
    (padding : Option ℤ) (groups : ℤ) (useNorm : Bool)
    (activation_layer : Option ActKind) (dilation : ℤ) (bias : Option Bool) :
    ConvNormActivation :=
  { in_channels := in_channels
    out_channels := out_channels
    kernel_size := kernel_size
    stride := stride
    padding := padding.getD (pyFloorDiv (kernel_size - 1) 2 * dilation)
    dilation := dilation
    groups := groups
    useNorm := useNorm
    activation_layer := activation_layer
    bias := bias.getD (!useNorm) }

/-- The immutable per-stage descriptor `InvertedResidualConfig`
(experiment.py lines 103-123): channel counts already quantized. -/
structure InvertedResidualConfig where
  input_channels : ℤ
  kernel : ℤ
  expanded_channels : ℤ
  out_channels : ℤ
  use_se : Bool
  activation : String
  stride : ℤ
  dilation : ℤ
deriving Repr, DecidableEq

/-- `InvertedResidualConfig.adjust_channels` (experiment.py lines
125-127): quantize `channels * width_mult` to a multiple of 8. -/
def InvertedResidualConfig.adjust_channels (channels : ℤ) (width_mult : ℚ) : ℤ :=
  _make_divisible ((channels : ℚ) * width_mult) 8 none

/-- `InvertedResidualConfig.__init__`: the three channel fields are run
through `adjust_channels` with the width multiplier; the remaining
fields pass through unchanged. The body contains no validation. -/
def InvertedResidualConfig.make
    (input_channels kernel expanded_channels out_channels : ℤ)
    (use_se : Bool) (activation : String) (stride dilation : ℤ)
    (width_mult : ℚ) : InvertedResidualConfig :=
  { input_channels := InvertedResidualConfig.adjust_channels input_channels width_mult
    kernel := kernel
    expanded_channels := InvertedResidualConfig.adjust_channels expanded_channels width_mult
    out_channels := InvertedResidualConfig.adjust_channels out_channels width_mult
    use_se := use_se
    activation := activation
    stride := stride
    dilation := dilation }

/-- The `InvertedResidualConfig` constructor embedded into `Except`
(the monad of Python constructors that may `raise`): its body contains
no `raise` statement, so it always returns `ok`. -/
def InvertedResidualConfig.makeE
    (input_channels kernel expanded_channels out_channels : ℤ)
    (use_se : Bool) (activation : String) (stride dilation : ℤ)
    (width_mult : ℚ) : Except String InvertedResidualConfig :=
  Except.ok (InvertedResidualConfig.make input_channels kernel expanded_channels
    out_channels use_se activation stride dilation width_mult)

/-- A placeholder config (used only as the default of `Option.getD` in
positions the proofs show are never reached). -/
def dummyCfg : InvertedResidualConfig :=
  { input_channels := 0, kernel := 0, expanded_channels := 0, out_channels := 0
    use_se := false, activation := (""), stride := 1, dilation := 1 }

/-- A layer inside an `InvertedResidual`'s sequential block: either a
`ConvNormActivation` or a squeeze-excitation gate (recorded by its
input and squeeze channel counts). -/
inductive IRLayer
  | cna (m : ConvNormActivation)
  | se (input_channels squeeze_channels : ℤ)
deriving Repr, DecidableEq

/-- The `InvertedResidual` module state after `__init__`. -/
structure InvertedResidual where
  use_res_connect : Bool
  block : List IRLayer
  out_channels : ℤ
  is_strided : Bool
deriving Repr, DecidableEq

/-- `InvertedResidual.__init__` (experiment.py lines 131-196): raises
on an illegal stride; computes the shortcut flag
`use_res_connect = (stride == 1 and input_channels == out_channels)`;
assembles, in order: the 1x1 expand stage (skipped when
`expanded_channels == input_channels`), the depthwise stage
(`groups = expanded_channels`, given stride and dilation), the
squeeze-excitation gate (iff `use_se`, with
`squeeze_channels = _make_divisible(expanded_channels // 4, 8)`), and
the 1x1 projection stage with no activation. -/
def InvertedResidual.make (cnf : InvertedResidualConfig) :
    Except String InvertedResidual :=
  if ¬ (1 ≤ cnf.stride ∧ cnf.stride ≤ 2) then
    Except.error ("Illegal stride value")
  else
    let activation_layer :=
      if cnf.activation == "HS" then ActKind.hardswish else ActKind.relu
    let expand : List IRLayer :=
      if cnf.expanded_channels ≠ cnf.input_channels then
        [IRLayer.cna (ConvNormActivation.make cnf.input_channels cnf.expanded_channels
          1 1 none 1 true (some activation_layer) 1 none)]
      else []
    let depthwise : IRLayer :=
      IRLayer.cna (ConvNormActivation.make cnf.expanded_channels cnf.expanded_channels
        cnf.kernel cnf.stride none cnf.expanded_channels true (some activation_layer)
        cnf.dilation none)
    let seLayers : List IRLayer :=
      if cnf.use_se then
        [IRLayer.se cnf.expanded_channels
          (_make_divisible ((pyFloorDiv cnf.expanded_channels 4 : ℤ) : ℚ) 8 none)]
      else []
    let project : IRLayer :=
      IRLayer.cna (ConvNormActivation.make cnf.expanded_channels cnf.out_channels
        1 1 none 1 true none 1 none)
    Except.ok
      { use_res_connect := cnf.stride == 1 && cnf.input_channels == cnf.out_channels
        block := expand ++ [depthwise] ++ seLayers ++ [project]
        out_channels := cnf.out_channels
        is_strided := decide (1 < cnf.stride) }

/-- A placeholder block (used only as the default of `Option.getD` in
positions the proofs show are never reached). -/
def irFallback : InvertedResidual :=
  { use_res_connect := false, block := [], out_channels := 0, is_strided := false }

/-- A 4-D tensor `[n, c, h, w]` with rational entries; `data` is a total
function on indices (entries outside the shape are irrelevant). -/
structure Tensor4 where
  n : ℕ
  c : ℕ
  h : ℕ
  w : ℕ
  data : ℕ → ℕ → ℕ → ℕ → ℚ

/-- `nn.AdaptiveAvgPool2d(1)`: global average pool over the two spatial
dimensions, producing shape `[n, c, 1, 1]`. -/
def adaptiveAvgPool1 (t : Tensor4) : Tensor4 :=
  { n := t.n, c := t.c, h := 1, w := 1
    data := fun b ch _ _ =>
      (∑ i ∈ Finset.range t.h, ∑ j ∈ Finset.range t.w, t.data b ch i j) / (t.h * t.w : ℚ) }

/-- `nn.Conv2d(inC, outC, 1)`: a 1x1 convolution; each output channel is
a bias plus a weighted sum over the input channels at the same spatial
position. -/
def conv1x1 (inC outC : ℕ) (weight : ℕ → ℕ → ℚ) (bias : ℕ → ℚ) (t : Tensor4) : Tensor4 :=
  { n := t.n, c := outC, h := t.h, w := t.w
    data := fun b oc i j =>
      bias oc + ∑ ic ∈ Finset.range inC, weight oc ic * t.data b ic i j }

/-- Pointwise application of a scalar function to every tensor entry. -/
def Tensor4.map (f : ℚ → ℚ) (t : Tensor4) : Tensor4 :=
  { t with data := fun b ch i j => f (t.data b ch i j) }

/-- `nn.ReLU` as a scalar function. -/
def relu (x : ℚ) : ℚ := max 0 x

/-- `nn.Hardsigmoid` as a scalar function: `relu6(x + 3) / 6`. -/
def hardsigmoid (x : ℚ) : ℚ := min 6 (max 0 (x + 3)) / 6

/-- Elementwise product with a `[n, c, 1, 1]` tensor broadcast over the
spatial dimensions (the `input * scale` of `SqueezeExcitation.forward`). -/
def mulBroadcastSpatial (t scale : Tensor4) : Tensor4 :=
  { t with data := fun b ch i j => t.data b ch i j * scale.data b ch 0 0 }

/-- Elementwise sum of two same-shape tensors (the residual
`input + result` of `InvertedResidual.forward`). -/
def Tensor4.add (t u : Tensor4) : Tensor4 :=
  { t with data := fun b ch i j => t.data b ch i j + u.data b ch i j }

/-- The `SqueezeExcitation` module (experiment.py lines 30-55): its two
1x1 convolutions with their weights and biases; the internal activation
is ReLU and the scale activation hard-sigmoid, as instantiated by
`InvertedResidual`. -/
structure SqueezeExcitation where
  input_channels : ℤ
  squeeze_channels : ℤ
  inC : ℕ
  sqC : ℕ
  w1 : ℕ → ℕ → ℚ
  b1 : ℕ → ℚ
  w2 : ℕ → ℕ → ℚ
  b2 : ℕ → ℚ

/-- `SqueezeExcitation._scale`: global average pool → 1x1 reduce →
ReLU → 1x1 expand → hard-sigmoid. -/
def SqueezeExcitation.scale (se : SqueezeExcitation) (input : Tensor4) : Tensor4 :=
  Tensor4.map hardsigmoid
    (conv1x1 se.sqC se.inC se.w2 se.b2
      (Tensor4.map relu
        (conv1x1 se.inC se.sqC se.w1 se.b1
          (adaptiveAvgPool1 input))))

/-- `SqueezeExcitation.forward`: `input * scale`, the scale tensor
having spatial shape 1x1 and broadcasting over the spatial dimensions. -/
def SqueezeExcitation.forward (se : SqueezeExcitation) (input : Tensor4) : Tensor4 :=
  mulBroadcastSpatial input (se.scale input)

/-- `InvertedResidual.forward` (experiment.py lines 198-203), parametric
in the tensor semantics `blockSem` of the sequential sub-block (whose
value depends on convolution weights that are not part of the structural
state): `result = self.block(input)`; return `input + result` when
`use_res_connect`, else `result`. -/
def InvertedResidual.forward (blockSem : List IRLayer → Tensor4 → Tensor4)
    (m : InvertedResidual) (input : Tensor4) : Tensor4 :=
  let result := blockSem m.block input
  if m.use_res_connect then Tensor4.add input result else result

/-- A top-level layer of `MobileNetV3Small.features`. -/
inductive FeatureLayer
  | cna (m : ConvNormActivation)
  | ir (m : InvertedResidual)
deriving Repr, DecidableEq

/-- A layer of `MobileNetV3Small.classifier`: `nn.Linear`,
`nn.Hardswish`, or `nn.Dropout`. -/
inductive ClassifierLayer
  | linear (in_features out_features : ℤ)
  | hardswishL
  | dropout (p : ℚ)
deriving Repr, DecidableEq

/-- The `MobileNetV3Small` module state after `__init__`: the ordered
feature layers and the classifier head.  (The global average pool and
the flatten between features and classifier are part of `forward` and
appear in `forwardShape`.) -/
structure MobileNetV3Small where
  features : List FeatureLayer
  classifier : List ClassifierLayer
deriving Repr, DecidableEq

/-- `bneck_conf`: `InvertedResidualConfig` with the width multiplier
partially applied (experiment.py line 223). -/
def bneck_conf (width_mult : ℚ)
    (input_channels kernel expanded_channels out_channels : ℤ)
    (use_se : Bool) (activation : String) (stride dilation : ℤ) :
    InvertedResidualConfig :=
  InvertedResidualConfig.make input_channels kernel expanded_channels out_channels
    use_se activation stride dilation width_mult

/-- The fixed 11-row inverted-residual schedule (experiment.py lines
229-242), with `reduce_divider = 2` iff `reduced_tail` and
`dilation = 2` iff `dilated`. -/
def invertedResidualSetting (reduced_tail dilated : Bool) (width_mult : ℚ) :
    List InvertedResidualConfig :=
  let rd : ℤ := if reduced_tail then 2 else 1
  let dil : ℤ := if dilated then 2 else 1
  [bneck_conf width_mult 16 3 16 16 true ("RE") 2 1,
   bneck_conf width_mult 16 3 72 24 false ("RE") 2 1,
   bneck_conf width_mult 24 3 88 24 false ("RE") 1 1,
   bneck_conf width_mult 24 5 96 40 true ("HS") 2 1,
   bneck_conf width_mult 40 5 240 40 true ("HS") 1 1,
   bneck_conf width_mult 40 5 240 40 true ("HS") 1 1,
   bneck_conf width_mult 40 5 120 48 true ("HS") 1 1,
   bneck_conf width_mult 48 5 144 48 true ("HS") 1 1,
   bneck_conf width_mult 48 5 (pyFloorDiv 288 rd) (pyFloorDiv 96 rd) true ("HS") 2 dil,
   bneck_conf width_mult (pyFloorDiv 96 rd) 5 (pyFloorDiv 576 rd) (pyFloorDiv 96 rd)
     true ("HS") 1 dil,
   bneck_conf width_mult (pyFloorDiv 96 rd) 5 (pyFloorDiv 576 rd) (pyFloorDiv 96 rd)
     true ("HS") 1 dil]

/-- Build the `InvertedResidual` blocks from their configs, in order
(the `for cnf in inverted_residual_setting` loop, line 260). -/
def makeBlocks : List InvertedResidualConfig → Except String (List InvertedResidual)
  | [] => Except.ok []
  | c :: cs =>
    match InvertedResidual.make c with
    | Except.error e => Except.error e
    | Except.ok b =>
      match makeBlocks cs with
      | Except.error e => Except.error e
      | Except.ok bs => Except.ok (b :: bs)

/-- `MobileNetV3Small.__init__` (experiment.py lines 207-283): the stem
`ConvNormActivation(3, setting[0].input_channels, kernel 3, stride 2, Hardswish)`,
one `InvertedResidual` per schedule row, the tail
`ConvNormActivation(setting[-1].out_channels, _make_divisible(576*width_mult, 8), kernel 1, Hardswish)`,
and the classifier
`Linear(tail_out, last_channel) → Hardswish → Dropout(p) → Linear(last_channel, num_classes)`
with `last_channel = _make_divisible(1024 // reduce_divider * width_mult, 8)`. -/
def MobileNetV3Small.make (num_classes : ℤ) (width_mult : ℚ) (dropout : ℚ)
    (reduced_tail dilated : Bool) : Except String MobileNetV3Small :=
  let setting := invertedResidualSetting reduced_tail dilated width_mult
  let rd : ℤ := if reduced_tail then 2 else 1
  let last_channel :=
    _make_divisible (((pyFloorDiv 1024 rd : ℤ) : ℚ) * width_mult) 8 none
  let firstconv_output_channels := (setting.headD dummyCfg).input_channels
  let stem := ConvNormActivation.make 3 firstconv_output_channels 3 2 none 1 true
    (some ActKind.hardswish) 1 none
  match makeBlocks setting with
  | Except.error e => Except.error e
  | Except.ok blocks =>
    let lastconv_input_channels := (setting.getLastD dummyCfg).out_channels
    let lastconv_output_channels := _make_divisible (576 * width_mult) 8 none
    let tail := ConvNormActivation.make lastconv_input_channels lastconv_output_channels
      1 1 none 1 true (some ActKind.hardswish) 1 none
    Except.ok
      { features :=
          FeatureLayer.cna stem :: blocks.map FeatureLayer.ir ++ [FeatureLayer.cna tail]
        classifier :=
          [ClassifierLayer.linear lastconv_output_channels last_channel,
           ClassifierLayer.hardswishL,
           ClassifierLayer.dropout dropout,
           ClassifierLayer.linear last_channel num_classes] }

/-- A placeholder network (used only as the default of `Option.getD` in
positions the proofs show are never reached). -/
def mnFallback : MobileNetV3Small := { features := [], classifier := [] }

/-- The default-hyperparameter network used by the concrete witnesses:
`num_classes = 10`, `width_mult = 1`, `dropout = 1/5`,
`reduced_tail = dilated = False`. -/
def netD : MobileNetV3Small :=
  (MobileNetV3Small.make 10 1 (1 / 5) false false).toOption.getD mnFallback

/-- A stride-2 config with equal (quantized) input and output channels,
used by the shortcut-flag witness. -/
def cnfS2 : InvertedResidualConfig :=
  InvertedResidualConfig.make 16 3 16 16 true ("RE") 2 1 1

/-- The block built from `cnfS2`. -/
def blockS2 : InvertedResidual :=
  (InvertedResidual.make cnfS2).toOption.getD irFallback

/-- A 4-D tensor shape `[n, c, h, w]` (batch, channels, height, width). -/
structure Shape where
  n : ℤ
  c : ℤ
  h : ℤ
  w : ℤ
deriving Repr, DecidableEq

/-- One spatial output dimension of `nn.Conv2d`:
`floor((h + 2*padding - dilation*(kernel-1) - 1) / stride) + 1`. -/
def convOutDim (h kernel stride padding dilation : ℤ) : ℤ :=
  (h + 2 * padding - dilation * (kernel - 1) - 1) / stride + 1

/-- Shape semantics of a `ConvNormActivation` block: the input channel
count must match, the stride must be positive, and the convolution's
spatial numerators must be nonnegative (PyTorch raises otherwise);
normalization and activation preserve the shape. -/
def ConvNormActivation.outShape (m : ConvNormActivation) (s : Shape) : Option Shape :=
  if s.c = m.in_channels ∧ 0 < m.stride ∧
      0 ≤ s.h + 2 * m.padding - m.dilation * (m.kernel_size - 1) - 1 ∧
      0 ≤ s.w + 2 * m.padding - m.dilation * (m.kernel_size - 1) - 1 then
    some { n := s.n, c := m.out_channels
           h := convOutDim s.h m.kernel_size m.stride m.padding m.dilation
           w := convOutDim s.w m.kernel_size m.stride m.padding m.dilation }
  else none

/-- Shape semantics of one inverted-residual sub-layer; the
squeeze-excitation gate preserves the shape but requires its channel
count to match. -/
def IRLayer.outShape : IRLayer → Shape → Option Shape
  | IRLayer.cna m, s => m.outShape s
  | IRLayer.se input_channels _, s => if s.c = input_channels then some s else none

/-- Shape semantics of a sequence of inverted-residual sub-layers. -/
def irSeqShape : List IRLayer → Shape → Option Shape
  | [], s => some s
  | l :: ls, s => (l.outShape s).bind (irSeqShape ls)

/-- Shape semantics of `InvertedResidual.forward`: the sequential block,
then (when `use_res_connect`) the residual addition, which requires the
output shape to equal the input shape. -/
def InvertedResidual.outShape (m : InvertedResidual) (s : Shape) : Option Shape :=
  (irSeqShape m.block s).bind fun r =>
    if m.use_res_connect then (if r = s then some r else none) else some r

/-- Shape semantics of a top-level feature layer. -/
def FeatureLayer.outShape : FeatureLayer → Shape → Option Shape
  | FeatureLayer.cna m, s => m.outShape s
  | FeatureLayer.ir m, s => m.outShape s

/-- Shape semantics of the feature sequence. -/
def featuresShape : List FeatureLayer → Shape → Option Shape
  | [], s => some s
  | l :: ls, s => (l.outShape s).bind (featuresShape ls)

/-- Shape semantics of the classifier on a flat `[n, features]` pair. -/
def classifierShape : List ClassifierLayer → ℤ × ℤ → Option (ℤ × ℤ)
  | [], p => some p
  | ClassifierLayer.linear inF outF :: ls, p =>
      if p.2 = inF then classifierShape ls (p.1, outF) else none
  | ClassifierLayer.hardswishL :: ls, p => classifierShape ls p
  | ClassifierLayer.dropout _ :: ls, p => classifierShape ls p

/-- Shape semantics of `MobileNetV3Small.forward` (experiment.py lines
301-306): features, global average pool to 1x1 (requires at least one
spatial position), flatten from dimension 1, classifier. -/
def MobileNetV3Small.forwardShape (m : MobileNetV3Small) (s : Shape) : Option (ℤ × ℤ) :=
  (featuresShape m.features s).bind fun t =>
    if 1 ≤ t.h ∧ 1 ≤ t.w then classifierShape m.classifier (t.n, t.c * 1 * 1) else none

/-- The stride of one inverted-residual sub-layer. -/
def IRLayer.strideOf : IRLayer → ℤ
  | IRLayer.cna m => m.stride
  | IRLayer.se _ _ => 1

/-- The stride of a top-level feature layer. -/
def FeatureLayer.strideOf : FeatureLayer → ℤ
  | FeatureLayer.cna m => m.stride
  | FeatureLayer.ir m => (m.block.map IRLayer.strideOf).prod

/-- The network's total spatial stride: the product of all convolution
strides along the feature path. -/
def MobileNetV3Small.totalStride (m : MobileNetV3Small) : ℤ :=
  (m.features.map FeatureLayer.strideOf).prod

/-- Count of `InvertedResidual` blocks among the feature layers. -/
def countIRLayers (ls : List FeatureLayer) : ℕ :=
  ls.countP fun l => match l with
    | FeatureLayer.ir _ => true
    | FeatureLayer.cna _ => false

/-- A state dict: a finite name-to-parameter mapping, modelled as a
partial function from names. -/
def StateDict (α : Type) : Type := String → Option α

/-- The dictionary comprehension of experiment.py line 323: drop every
entry whose name starts with `classifier`. -/
def removeClassifierEntries {α : Type} (sd : StateDict α) : StateDict α :=
  fun k => if pyStartsWith k ("classifier") then none else sd k

/-- Python `dict.update`: entries of `upd` override those of `base`. -/
def dictUpdate {α : Type} (base upd : StateDict α) : StateDict α :=
  fun k => match upd k with
    | some v => some v
    | none => base k

/-- The pretrained-weight transplant of `mobilenet_v3_small`
(experiment.py lines 309-334): when the requested `num_classes` differs
from the source's 1000, the source's classifier entries are removed and
the remaining entries override the freshly initialized model dict, which
is then loaded; otherwise the source dict is loaded wholesale. -/
def transplant {α : Type} (num_classes : ℤ)
    (model_dict pretrained_state_dict : StateDict α) : StateDict α :=
  if num_classes ≠ 1000 then
    dictUpdate model_dict (removeClassifierEntries pretrained_state_dict)
  else pretrained_state_dict

/-- A tiny concrete freshly-initialized model dict for the transplant
witness. -/
def mD0 : StateDict ℤ := fun k =>
  if k = ("classifier.3.weight") then some 1
  else if k = ("features.0.weight") then some 2
  else none

/-- A tiny concrete pretrained source dict for the transplant witness. -/
def sD0 : StateDict ℤ := fun k =>
  if k = ("classifier.3.weight") then some 11
  else if k = ("features.0.weight") then some 12
  else none

/-- The stem layer of the default-hyperparameter network, written out
literally (its value is established by `make_default_eval`). -/
def stemLit : ConvNormActivation :=
  ⟨3, 16, 3, 2, 1, 1, 1, true, some ActKind.hardswish, false⟩

/-- Block 0 of the default network (row `16,3,16,16,SE,RE,2,1`). -/
def blk0 : InvertedResidual :=
  ⟨false,
   [IRLayer.cna ⟨16, 16, 3, 2, 1, 1, 16, true, some ActKind.relu, false⟩,
    IRLayer.se 16 8,
    IRLayer.cna ⟨16, 16, 1, 1, 0, 1, 1, true, none, false⟩],
   16, true⟩

/-- Block 1 of the default network (row `16,3,72,24,-,RE,2,1`). -/
def blk1 : InvertedResidual :=
  ⟨false,
   [IRLayer.cna ⟨16, 72, 1, 1, 0, 1, 1, true, some ActKind.relu, false⟩,
    IRLayer.cna ⟨72, 72, 3, 2, 1, 1, 72, true, some ActKind.relu, false⟩,
    IRLayer.cna ⟨72, 24, 1, 1, 0, 1, 1, true, none, false⟩],
   24, true⟩

/-- Block 2 of the default network (row `24,3,88,24,-,RE,1,1`). -/
def blk2 : InvertedResidual :=
  ⟨true,
   [IRLayer.cna ⟨24, 88, 1, 1, 0, 1, 1, true, some ActKind.relu, false⟩,
    IRLayer.cna ⟨88, 88, 3, 1, 1, 1, 88, true, some ActKind.relu, false⟩,
    IRLayer.cna ⟨88, 24, 1, 1, 0, 1, 1, true, none, false⟩],
   24, false⟩

/-- Block 3 of the default network (row `24,5,96,40,SE,HS,2,1`). -/
def blk3 : InvertedResidual :=
  ⟨false,
   [IRLayer.cna ⟨24, 96, 1, 1, 0, 1, 1, true, some ActKind.hardswish, false⟩,
    IRLayer.cna ⟨96, 96, 5, 2, 2, 1, 96, true, some ActKind.hardswish, false⟩,
    IRLayer.se 96 24,
    IRLayer.cna ⟨96, 40, 1, 1, 0, 1, 1, true, none, false⟩],
   40, true⟩

/-- Blocks 4 and 5 of the default network (row `40,5,240,40,SE,HS,1,1`). -/
def blk4 : InvertedResidual :=
  ⟨true,
   [IRLayer.cna ⟨40, 240, 1, 1, 0, 1, 1, true, some ActKind.hardswish, false⟩,
    IRLayer.cna ⟨240, 240, 5, 1, 2, 1, 240, true, some ActKind.hardswish, false⟩,
    IRLayer.se 240 64,
    IRLayer.cna ⟨240, 40, 1, 1, 0, 1, 1, true, none, false⟩],
   40, false⟩

/-- Block 6 of the default network (row `40,5,120,48,SE,HS,1,1`). -/
def blk6 : InvertedResidual :=
  ⟨false,
   [IRLayer.cna ⟨40, 120, 1, 1, 0, 1, 1, true, some ActKind.hardswish, false⟩,
    IRLayer.cna ⟨120, 120, 5, 1, 2, 1, 120, true, some ActKind.hardswish, false⟩,
    IRLayer.se 120 32,
    IRLayer.cna ⟨120, 48, 1, 1, 0, 1, 1, true, none, false⟩],
   48, false⟩

/-- Block 7 of the default network (row `48,5,144,48,SE,HS,1,1`). -/
def blk7 : InvertedResidual :=
  ⟨true,
   [IRLayer.cna ⟨48, 144, 1, 1, 0, 1, 1, true, some ActKind.hardswish, false⟩,
    IRLayer.cna ⟨144, 144, 5, 1, 2, 1, 144, true, some ActKind.hardswish, false⟩,
    IRLayer.se 144 40,
    IRLayer.cna ⟨144, 48, 1, 1, 0, 1, 1, true, none, false⟩],
   48, false⟩

/-- Block 8 of the default network (row `48,5,288,96,SE,HS,2,1`). -/
def blk8 : InvertedResidual :=
  ⟨false,
   [IRLayer.cna ⟨48, 288, 1, 1, 0, 1, 1, true, some ActKind.hardswish, false⟩,
    IRLayer.cna ⟨288, 288, 5, 2, 2, 1, 288, true, some ActKind.hardswish, false⟩,
    IRLayer.se 288 72,
    IRLayer.cna ⟨288, 96, 1, 1, 0, 1, 1, true, none, false⟩],
   96, true⟩

/-- Blocks 9 and 10 of the default network (row `96,5,576,96,SE,HS,1,1`). -/
def blk9 : InvertedResidual :=
  ⟨true,
   [IRLayer.cna ⟨96, 576, 1, 1, 0, 1, 1, true, some ActKind.hardswish, false⟩,
    IRLayer.cna ⟨576, 576, 5, 1, 2, 1, 576, true, some ActKind.hardswish, false⟩,
    IRLayer.se 576 144,
    IRLayer.cna ⟨576, 96, 1, 1, 0, 1, 1, true, none, false⟩],
   96, false⟩

/-- The tail layer of the default network. -/
def tailLit : ConvNormActivation :=
  ⟨96, 576, 1, 1, 0, 1, 1, true, some ActKind.hardswish, false⟩

/-- The value of `MobileNetV3Small.make num_classes 1 dropout false false`,
written out literally (established by `make_default_eval`). -/
def net1 (num_classes : ℤ) (dropout : ℚ) : MobileNetV3Small :=
  { features :=
      [FeatureLayer.cna stemLit,
       FeatureLayer.ir blk0, FeatureLayer.ir blk1, FeatureLayer.ir blk2,
       FeatureLayer.ir blk3, FeatureLayer.ir blk4, FeatureLayer.ir blk4,
       FeatureLayer.ir blk6, FeatureLayer.ir blk7, FeatureLayer.ir blk8,
       FeatureLayer.ir blk9, FeatureLayer.ir blk9,
       FeatureLayer.cna tailLit]
    classifier :=
      [ClassifierLayer.linear 576 1024, ClassifierLayer.hardswishL,
       ClassifierLayer.dropout dropout, ClassifierLayer.linear 1024 num_classes] }

lemma ediv_floor (x : ℚ) (d : ℤ) (hd : 0 < d) : ⌊x⌋ / d = ⌊x / (d : ℚ)⌋ := by
  have hdq : (0 : ℚ) < (d : ℚ) := by exact_mod_cast hd
  apply le_antisymm
  · apply Int.le_floor.2
    rw [le_div_iff₀ hdq]
    have h1 : (⌊x⌋ / d) * d ≤ ⌊x⌋ := Int.ediv_mul_le _ (by omega)
    calc ((⌊x⌋ / d : ℤ) : ℚ) * (d : ℚ) = ((⌊x⌋ / d * d : ℤ) : ℚ) := by push_cast; ring
      _ ≤ ((⌊x⌋ : ℤ) : ℚ) := by exact_mod_cast h1
      _ ≤ x := Int.floor_le x
  · rw [Int.le_ediv_iff_mul_le hd]
    apply Int.le_floor.2
    push_cast
    rw [← le_div_iff₀ hdq]
    exact_mod_cast Int.floor_le (x / (d : ℚ))

/-- Evaluating the network assembly at the default hyperparameters
(`width_mult = 1`, `reduced_tail = dilated = False`): it succeeds and
produces exactly the literal layer stack `net1`. -/
lemma make_default_eval (num_classes : ℤ) (dropout : ℚ) :
    MobileNetV3Small.make num_classes 1 dropout false false =
      Except.ok (net1 num_classes dropout) := by
  have a16 : InvertedResidualConfig.adjust_channels 16 1 = 16 := by
    have h : Int.fdiv 20 8 = 2 := by decide
    norm_num [InvertedResidualConfig.adjust_channels, _make_divisible, pyInt, pyFloorDiv, h]
  have a24 : InvertedResidualConfig.adjust_channels 24 1 = 24 := by
    have h : Int.fdiv 28 8 = 3 := by decide
    norm_num [InvertedResidualConfig.adjust_channels, _make_divisible, pyInt, pyFloorDiv, h]
  have a40 : InvertedResidualConfig.adjust_channels 40 1 = 40 := by
    have h : Int.fdiv 44 8 = 5 := by decide
    norm_num [InvertedResidualConfig.adjust_channels, _make_divisible, pyInt, pyFloorDiv, h]
  have a48 : InvertedResidualConfig.adjust_channels 48 1 = 48 := by
    have h : Int.fdiv 52 8 = 6 := by decide
    norm_num [InvertedResidualConfig.adjust_channels, _make_divisible, pyInt, pyFloorDiv, h]
  have a72 : InvertedResidualConfig.adjust_channels 72 1 = 72 := by
    have h : Int.fdiv 76 8 = 9 := by decide
    norm_num [InvertedResidualConfig.adjust_channels, _make_divisible, pyInt, pyFloorDiv, h]
  have a88 : InvertedResidualConfig.adjust_channels 88 1 = 88 := by
    have h : Int.fdiv 92 8 = 11 := by decide
    norm_num [InvertedResidualConfig.adjust_channels, _make_divisible, pyInt, pyFloorDiv, h]
  have a96 : InvertedResidualConfig.adjust_channels 96 1 = 96 := by
    have h : Int.fdiv 100 8 = 12 := by decide
    norm_num [InvertedResidualConfig.adjust_channels, _make_divisible, pyInt, pyFloorDiv, h]
  have a120 : InvertedResidualConfig.adjust_channels 120 1 = 120 := by
    have h : Int.fdiv 124 8 = 15 := by decide
    norm_num [InvertedResidualConfig.adjust_channels, _make_divisible, pyInt, pyFloorDiv, h]
  have a144 : InvertedResidualConfig.adjust_channels 144 1 = 144 := by
    have h : Int.fdiv 148 8 = 18 := by decide
    norm_num [InvertedResidualConfig.adjust_channels, _make_divisible, pyInt, pyFloorDiv, h]
  have a240 : InvertedResidualConfig.adjust_channels 240 1 = 240 := by
    have h : Int.fdiv 244 8 = 30 := by decide
    norm_num [InvertedResidualConfig.adjust_channels, _make_divisible, pyInt, pyFloorDiv, h]
  have a288 : InvertedResidualConfig.adjust_channels 288 1 = 288 := by
    have h : Int.fdiv 292 8 = 36 := by decide
    norm_num [InvertedResidualConfig.adjust_channels, _make_divisible, pyInt, pyFloorDiv, h]
  have a576 : InvertedResidualConfig.adjust_channels 576 1 = 576 := by
    have h : Int.fdiv 580 8 = 72 := by decide
    norm_num [InvertedResidualConfig.adjust_channels, _make_divisible, pyInt, pyFloorDiv, h]
  have sq16 : _make_divisible ((pyFloorDiv 16 4 : ℤ) : ℚ) 8 none = 8 := by
    have h0 : pyFloorDiv 16 4 = 4 := by decide
    have h : Int.fdiv 8 8 = 1 := by decide
    rw [h0]
    norm_num [_make_divisible, pyInt, pyFloorDiv, h]
  have sq96 : _make_divisible ((pyFloorDiv 96 4 : ℤ) : ℚ) 8 none = 24 := by
    have h0 : pyFloorDiv 96 4 = 24 := by decide
    have h : Int.fdiv 28 8 = 3 := by decide
    rw [h0]
    norm_num [_make_divisible, pyInt, pyFloorDiv, h]
  have sq240 : _make_divisible ((pyFloorDiv 240 4 : ℤ) : ℚ) 8 none = 64 := by
    have h0 : pyFloorDiv 240 4 = 60 := by decide
    have h : Int.fdiv 64 8 = 8 := by decide
    rw [h0]
    norm_num [_make_divisible, pyInt, pyFloorDiv, h]
  have sq120 : _make_divisible ((pyFloorDiv 120 4 : ℤ) : ℚ) 8 none = 32 := by
    have h0 : pyFloorDiv 120 4 = 30 := by decide
    have h : Int.fdiv 34 8 = 4 := by decide
    rw [h0]
    norm_num [_make_divisible, pyInt, pyFloorDiv, h]
  have sq144 : _make_divisible ((pyFloorDiv 144 4 : ℤ) : ℚ) 8 none = 40 := by
    have h0 : pyFloorDiv 144 4 = 36 := by decide
    have h : Int.fdiv 40 8 = 5 := by decide
    rw [h0]
    norm_num [_make_divisible, pyInt, pyFloorDiv, h]
  have sq288 : _make_divisible ((pyFloorDiv 288 4 : ℤ) : ℚ) 8 none = 72 := by
    have h0 : pyFloorDiv 288 4 = 72 := by decide
    have h : Int.fdiv 76 8 = 9 := by decide
    rw [h0]
    norm_num [_make_divisible, pyInt, pyFloorDiv, h]
  have sq576 : _make_divisible ((pyFloorDiv 576 4 : ℤ) : ℚ) 8 none = 144 := by
    have h0 : pyFloorDiv 576 4 = 144 := by decide
    have h : Int.fdiv 148 8 = 18 := by decide
    rw [h0]
    norm_num [_make_divisible, pyInt, pyFloorDiv, h]
  have lc1024 : _make_divisible (((pyFloorDiv 1024 1 : ℤ) : ℚ) * 1) 8 none = 1024 := by
    have h0 : pyFloorDiv 1024 1 = 1024 := by decide
    have h : Int.fdiv 1028 8 = 128 := by decide
    rw [h0]
    norm_num [_make_divisible, pyInt, pyFloorDiv, h]
  have t576 : _make_divisible ((576 : ℚ) * 1) 8 none = 576 := by
    have h : Int.fdiv 580 8 = 72 := by decide
    norm_num [_make_divisible, pyInt, pyFloorDiv, h]
  have p288 : pyFloorDiv 288 1 = 288 := by decide
  have p96 : pyFloorDiv 96 1 = 96 := by decide
  have p576 : pyFloorDiv 576 1 = 576 := by decide
  have pk3 : pyFloorDiv 2 2 = 1 := by decide
  have pk5 : pyFloorDiv 4 2 = 2 := by decide
  have pk1 : pyFloorDiv 0 2 = 0 := by decide
  have t576n : _make_divisible (576 : ℚ) 8 none = 576 := by
    have h : Int.fdiv 580 8 = 72 := by decide
    norm_num [_make_divisible, pyInt, pyFloorDiv, h]
  have lcn : _make_divisible ((pyFloorDiv 1024 1 : ℤ) : ℚ) 8 none = 1024 := by
    have h0 : pyFloorDiv 1024 1 = 1024 := by decide
    have h : Int.fdiv 1028 8 = 128 := by decide
    rw [h0]
    norm_num [_make_divisible, pyInt, pyFloorDiv, h]
  have hRE : (("RE" : String) = "HS") = False := by simp
  norm_num [MobileNetV3Small.make, invertedResidualSetting, bneck_conf,
    InvertedResidualConfig.make, makeBlocks, InvertedResidual.make,
    ConvNormActivation.make, List.headD, List.getLastD,
    a16, a24, a40, a48, a72, a88, a96, a120, a144, a240, a288, a576,
    sq16, sq96, sq240, sq120, sq144, sq288, sq576, lc1024, t576,
    p288, p96, p576, pk3, pk5, pk1, t576n, lcn, hRE,
    net1, stemLit, blk0, blk1, blk2, blk3, blk4, blk6, blk7, blk8, blk9, tailLit]

/-- C1: for `v ≥ 0` and `divisor > 0`, with `min_value` defaulted, the
code's `_make_divisible` returns exactly the value of the spec's
algorithm (candidate = max of the minimum and nearest-multiple rounding,
bumped by one divisor step when it falls below `0.9 * v`); both sides
are pure total functions. -/
theorem quantizer_refines_spec (v : ℚ) (d : ℤ) (hv : 0 ≤ v) (hd : 0 < d) :
    _make_divisible v d none = specQuantize v d := by
  have hdq : (0 : ℚ) < (d : ℚ) := by exact_mod_cast hd
  have h1 : (0 : ℚ) ≤ v + (d : ℚ) / 2 := by linarith
  unfold _make_divisible specQuantize pyFloorDiv pyInt
  rw [if_pos h1, Int.fdiv_eq_ediv _ hd.le, ediv_floor _ _ hd]
  rfl

/-- Witness for C1 at `v = 18`, `d = 8`: both sides evaluate to 24. -/
theorem quantizer_refines_spec_w :
    (0 : ℚ) ≤ 18 ∧ (0 : ℤ) < 8 ∧ _make_divisible 18 8 none = specQuantize 18 8 ∧
      _make_divisible 18 8 none = 24 :=
  ⟨by norm_num, by norm_num,
    quantizer_refines_spec 18 8 (by norm_num) (by norm_num), by
      have h : Int.fdiv 22 8 = 2 := by decide
      norm_num [_make_divisible, pyInt, pyFloorDiv, h]⟩

/-- C2: for `v ≥ 0` and `divisor > 0` with `min_value` defaulted, the
quantized value is at least `floor(0.9 * v)`: the 10 percent loss guard
never fails. -/
theorem quantizer_loss_guard (v : ℚ) (d : ℤ) (hv : 0 ≤ v) (hd : 0 < d) :
    ⌊(9 / 10 : ℚ) * v⌋ ≤ _make_divisible v d none := by
  have hdq : (0 : ℚ) < (d : ℚ) := by exact_mod_cast hd
  have h1 : (0 : ℚ) ≤ v + (d : ℚ) / 2 := by linarith
  unfold _make_divisible pyFloorDiv pyInt
  simp only [Option.getD, if_pos h1]
  set q : ℤ := Int.fdiv ⌊v + (d : ℚ) / 2⌋ d with hq
  set nv : ℤ := max d (q * d) with hnv
  by_cases hguard : (nv : ℚ) < 9 / 10 * v
  · rw [if_pos hguard]
    -- the bumped value exceeds `v` itself, hence certainly `floor(0.9 v)`
    have hq2 : q = ⌊(v + (d : ℚ) / 2) / (d : ℚ)⌋ := by
      rw [hq, Int.fdiv_eq_ediv _ hd.le, ediv_floor _ _ hd]
    have h3 : (v + (d : ℚ) / 2) / (d : ℚ) - 1 < (q : ℚ) := by
      rw [hq2]; exact Int.sub_one_lt_floor _
    have h4 : v + (d : ℚ) / 2 - (d : ℚ) < (q : ℚ) * (d : ℚ) := by
      have := mul_lt_mul_of_pos_right h3 hdq
      rw [sub_mul, div_mul_cancel₀ _ (ne_of_gt hdq), one_mul] at this
      linarith
    have h5 : (q * d : ℤ) ≤ nv := by rw [hnv]; exact le_max_right _ _
    have h5q : ((q * d : ℤ) : ℚ) ≤ (nv : ℚ) := by exact_mod_cast h5
    have h6 : (9 / 10 : ℚ) * v < ((nv + d : ℤ) : ℚ) := by
      push_cast at h5q ⊢
      nlinarith
    have h7 : ⌊(9 / 10 : ℚ) * v⌋ ≤ ⌊((nv + d : ℤ) : ℚ)⌋ := Int.floor_le_floor h6.le
    rwa [Int.floor_intCast] at h7
  · rw [if_neg hguard]
    push_neg at hguard
    have h7 : ⌊(9 / 10 : ℚ) * v⌋ ≤ ⌊((nv : ℤ) : ℚ)⌋ := Int.floor_le_floor hguard
    rwa [Int.floor_intCast] at h7

/-- Witness for C2 at `v = 18`, `d = 8`: `floor(0.9 * 18) = 16 ≤ 24`. -/
theorem quantizer_loss_guard_w :
    (0 : ℚ) ≤ 18 ∧ (0 : ℤ) < 8 ∧
      ⌊(9 / 10 : ℚ) * (18 : ℚ)⌋ ≤ _make_divisible 18 8 none ∧
      ⌊(9 / 10 : ℚ) * (18 : ℚ)⌋ = 16 :=
  ⟨by norm_num, by norm_num,
    quantizer_loss_guard 18 8 (by norm_num) (by norm_num), by norm_num⟩

/-- C3 counterexample: the claim says constructing an
`InvertedResidualConfig` with `stride ∉ {1,2}` fails with an
invalid-configuration error, but the constructor body contains no
validation: at `stride = 3` (and `width_mult = 1 > 0`) it succeeds. -/
theorem blockspec_stride_claim_cex :
    (InvertedResidualConfig.makeE 16 3 16 16 true ("RE") 3 1 1).isOk = true ∧
      ¬ ((3 : ℤ) = 1 ∨ (3 : ℤ) = 2) ∧ (0 : ℚ) < 1 :=
  ⟨rfl, by decide, by norm_num⟩

/-- C3 amended: constructing an `InvertedResidualConfig` never fails,
whatever the stride; the invalid-configuration error for a stride
outside `{1,2}` is raised only later, when an `InvertedResidual` block
is constructed from that config. -/
theorem blockspec_construction_total
    (ic k ec oc : ℤ) (se : Bool) (act : String) (s d : ℤ) (wm : ℚ)
    (hwm : 0 < wm) (h1 : s ≠ 1) (h2 : s ≠ 2) :
    (InvertedResidualConfig.makeE ic k ec oc se act s d wm).isOk = true ∧
      InvertedResidual.make (InvertedResidualConfig.make ic k ec oc se act s d wm) =
        Except.error ("Illegal stride value") := by
  refine ⟨rfl, ?_⟩
  unfold InvertedResidual.make
  rw [if_pos]
  show ¬ (1 ≤ (InvertedResidualConfig.make ic k ec oc se act s d wm).stride ∧
    (InvertedResidualConfig.make ic k ec oc se act s d wm).stride ≤ 2)
  simp only [InvertedResidualConfig.make]
  omega

/-- Witness for the amended C3 at `stride = 3`, `width_mult = 1`. -/
theorem blockspec_construction_total_w :
    (InvertedResidualConfig.makeE 16 3 16 16 true ("RE") 3 1 1).isOk = true ∧
      InvertedResidual.make (InvertedResidualConfig.make 16 3 16 16 true ("RE") 3 1 1) =
        Except.error ("Illegal stride value") :=
  blockspec_construction_total 16 3 16 16 true ("RE") 3 1 1
    (by norm_num) (by decide) (by decide)

/-- C6: constructing an `InvertedResidual` fails, with the
illegal-stride error, exactly when the config's stride lies outside
`{1,2}`; for a stride in `{1,2}` construction succeeds. -/
theorem invres_stride_error_iff (cnf : InvertedResidualConfig) :
    (InvertedResidual.make cnf = Except.error ("Illegal stride value") ↔
      ¬ (cnf.stride = 1 ∨ cnf.stride = 2)) ∧
    ((InvertedResidual.make cnf).isOk = true ↔ (cnf.stride = 1 ∨ cnf.stride = 2)) := by
  unfold InvertedResidual.make
  by_cases h : 1 ≤ cnf.stride ∧ cnf.stride ≤ 2
  · rw [if_neg (not_not_intro h)]
    exact ⟨iff_of_false (by simp) (by omega),
      iff_of_true (by simp [Except.isOk, Except.toBool]) (by omega)⟩
  · rw [if_pos h]
    exact ⟨iff_of_true rfl (by omega),
      iff_of_false (by simp [Except.isOk, Except.toBool]) (by omega)⟩

/-- Witness for C6: at the stride-2 config `cnfS2` construction
succeeds. -/
theorem invres_stride_error_iff_w :
    (InvertedResidual.make cnfS2).isOk = true :=
  (invres_stride_error_iff cnfS2).2.mpr (Or.inr rfl)

/-- C4: for every successfully constructed block, the shortcut flag
holds iff `stride == 1` and the (quantized) input and output channel
counts coincide, and `forward` adds the original input to the
sequential-block result exactly when the flag holds. -/
theorem shortcut_iff (cnf : InvertedResidualConfig) (m : InvertedResidual)
    (hm : InvertedResidual.make cnf = Except.ok m) :
    (m.use_res_connect = true ↔
      (cnf.stride = 1 ∧ cnf.input_channels = cnf.out_channels)) ∧
    ∀ blockSem input,
      InvertedResidual.forward blockSem m input =
        (if m.use_res_connect then Tensor4.add input (blockSem m.block input)
         else blockSem m.block input) := by
  unfold InvertedResidual.make at hm
  by_cases h : 1 ≤ cnf.stride ∧ cnf.stride ≤ 2
  · rw [if_neg (not_not_intro h)] at hm
    injection hm with hm
    subst hm
    constructor
    · simp [Bool.and_eq_true, beq_iff_eq]
    · intro blockSem input
      rfl
  · rw [if_pos h] at hm
    exact absurd hm (by simp)

/-- Witness for C4 at a stride-2 config with equal quantized input and
output channels: the block exists and has no shortcut. -/
theorem shortcut_iff_w :
    InvertedResidual.make cnfS2 = Except.ok blockS2 ∧
      blockS2.use_res_connect = false := by
  refine ⟨rfl, ?_⟩
  have h := (shortcut_iff cnfS2 blockS2 rfl).1
  cases hval : blockS2.use_res_connect
  · rfl
  · have h2 := (h.1 hval).1
    norm_num [cnfS2, InvertedResidualConfig.make] at h2

/-- C7: for every squeeze-excitation module and input tensor, every
entry of the per-channel scale tensor (global average pool → 1x1
reduce → ReLU → 1x1 expand → hard-sigmoid) lies in `[0,1]`, and
`forward` returns the input multiplied elementwise by that scale,
broadcast over the spatial dimensions. -/
theorem squeeze_excite_scale_bounds (se : SqueezeExcitation) (t : Tensor4)
    (b ch i j : ℕ) :
    (0 ≤ (se.scale t).data b ch i j ∧ (se.scale t).data b ch i j ≤ 1) ∧
      se.forward t = mulBroadcastSpatial t (se.scale t) := by
  refine ⟨?_, rfl⟩
  have hval : (se.scale t).data b ch i j =
      hardsigmoid ((conv1x1 se.sqC se.inC se.w2 se.b2
        (Tensor4.map relu (conv1x1 se.inC se.sqC se.w1 se.b1
          (adaptiveAvgPool1 t)))).data b ch i j) := rfl
  rw [hval]
  unfold hardsigmoid
  set x := (conv1x1 se.sqC se.inC se.w2 se.b2
    (Tensor4.map relu (conv1x1 se.inC se.sqC se.w1 se.b1
      (adaptiveAvgPool1 t)))).data b ch i j
  constructor
  · have h1 : (0 : ℚ) ≤ min 6 (max 0 (x + 3)) := le_min (by norm_num) (le_max_left _ _)
    positivity
  · rw [div_le_one (by norm_num)]
    exact min_le_left _ _

/-- C9: the transplant copies every non-classifier source entry when the
target class count differs from 1000, leaves classifier entries at their
freshly initialized values, and copies everything (classifier included)
when the class count is exactly 1000. -/
theorem transplant_classifier_rule {α : Type} (modelD srcD : StateDict α)
    (num_classes : ℤ) (k : String) :
    (num_classes ≠ 1000 →
      (pyStartsWith k ("classifier") = false → ∀ v, srcD k = some v →
        transplant num_classes modelD srcD k = some v) ∧
      (pyStartsWith k ("classifier") = true →
        transplant num_classes modelD srcD k = modelD k)) ∧
    (num_classes = 1000 → transplant num_classes modelD srcD k = srcD k) := by
  refine ⟨fun hnc => ⟨fun hk v hv => ?_, fun hk => ?_⟩, fun hnc => ?_⟩
  · unfold transplant dictUpdate removeClassifierEntries
    rw [if_pos hnc]
    simp [hk, hv]
  · unfold transplant dictUpdate removeClassifierEntries
    rw [if_pos hnc]
    simp [hk]
  · unfold transplant
    rw [if_neg (by simpa using hnc)]

/-- Witness for C9 on a two-entry dict at `num_classes = 10`: the
feature entry is copied from the source, the classifier entry keeps the
model's fresh value. -/
theorem transplant_classifier_rule_w :
    transplant 10 mD0 sD0 ("features.0.weight") = some 12 ∧
      transplant 10 mD0 sD0 ("classifier.3.weight") = some 1 :=
  ⟨((transplant_classifier_rule mD0 sD0 10 ("features.0.weight")).1 (by norm_num)).1
      (by decide) 12 (by simp [sD0]),
   by
    rw [((transplant_classifier_rule mD0 sD0 10 ("classifier.3.weight")).1
      (by norm_num)).2 (by decide)]
    simp [mD0]⟩

/-- C8: at `width_mult = 1`, `reduced_tail = dilated = False`, the
assembled network is, in order: a stem ConvNormAct with 3 input
channels, kernel 3, stride 2 and HardSwish; exactly 11 InvertedResidual
blocks (positions 1..11 of the feature stack); one tail ConvNormAct with
kernel 1 and HardSwish; and a classifier of exactly two linear layers
with a HardSwish and a dropout between them.  (The global average pool
sits between features and classifier inside `forward`; see
`MobileNetV3Small.forwardShape`.) -/
theorem network_structure (num_classes : ℤ) (dropout : ℚ) (m : MobileNetV3Small)
    (hm : MobileNetV3Small.make num_classes 1 dropout false false = Except.ok m) :
    m.features.length = 13 ∧
    countIRLayers m.features = 11 ∧
    m.features.head? = some (FeatureLayer.cna stemLit) ∧
    (stemLit.in_channels = 3 ∧ stemLit.kernel_size = 3 ∧ stemLit.stride = 2 ∧
      stemLit.activation_layer = some ActKind.hardswish) ∧
    m.features.getLast? = some (FeatureLayer.cna tailLit) ∧
    (tailLit.kernel_size = 1 ∧ tailLit.activation_layer = some ActKind.hardswish) ∧
    (∀ i : ℕ, 1 ≤ i → i ≤ 11 → ∃ b, m.features[i]? = some (FeatureLayer.ir b)) ∧
    m.classifier =
      [ClassifierLayer.linear 576 1024, ClassifierLayer.hardswishL,
       ClassifierLayer.dropout dropout, ClassifierLayer.linear 1024 num_classes] := by
  rw [make_default_eval] at hm
  injection hm with hm
  subst hm
  refine ⟨rfl, rfl, rfl, ⟨rfl, rfl, rfl, rfl⟩, rfl, ⟨rfl, rfl⟩, ?_, rfl⟩
  intro i h1 h2
  interval_cases i <;> exact ⟨_, rfl⟩

/-- Witness for C8 at `num_classes = 10`, `dropout = 1/5`. -/
theorem network_structure_w :
    netD.features.length = 13 ∧ countIRLayers netD.features = 11 :=
  ⟨(network_structure 10 (1 / 5) netD rfl).1,
   (network_structure 10 (1 / 5) netD rfl).2.1⟩

/-- C10: for every width multiplier and both tail/dilation flags, the
quantized 11-row schedule is chain-consistent (each row's quantized
`out_channels` equals the next row's quantized `input_channels`), and
the stem's output channel count is exactly row 0's quantized
`input_channels`. -/
theorem schedule_chain_consistent (width_mult : ℚ) (hwm : 0 < width_mult)
    (reduced_tail dilated : Bool) (num_classes : ℤ) (dropout : ℚ)
    (m : MobileNetV3Small)
    (hm : MobileNetV3Small.make num_classes width_mult dropout reduced_tail dilated =
      Except.ok m) :
    List.Chain' (fun a b => a.out_channels = b.input_channels)
      (invertedResidualSetting reduced_tail dilated width_mult) ∧
    ∀ st, m.features.head? = some (FeatureLayer.cna st) →
      st.out_channels =
        ((invertedResidualSetting reduced_tail dilated width_mult).headD
          dummyCfg).input_channels := by
  constructor
  · simp [invertedResidualSetting, bneck_conf, InvertedResidualConfig.make,
      List.chain'_cons, List.chain'_singleton]
  · injection hm with hm
    subst hm
    intro st hst
    dsimp only at hst
    rw [List.cons_append, List.head?_cons] at hst
    injection hst with h1
    injection h1 with h2
    rw [← h2]
    rfl

lemma cna_shape_stride1 (m : ConvNormActivation) (n c h w : ℤ)
    (hc : c = m.in_channels) (hstr : m.stride = 1)
    (hpad : 2 * m.padding = m.dilation * (m.kernel_size - 1))
    (hh : 1 ≤ h) (hw : 1 ≤ w) :
    m.outShape ⟨n, c, h, w⟩ = some ⟨n, m.out_channels, h, w⟩ := by
  unfold ConvNormActivation.outShape convOutDim
  dsimp only
  rw [hstr]
  generalize hD : m.dilation * (m.kernel_size - 1) = D at hpad ⊢
  have hcond : c = m.in_channels ∧ (0 : ℤ) < 1 ∧
      0 ≤ h + 2 * m.padding - D - 1 ∧ 0 ≤ w + 2 * m.padding - D - 1 :=
    ⟨hc, by norm_num, by omega, by omega⟩
  rw [if_pos hcond]
  simp only [Option.some.injEq, Shape.mk.injEq, true_and, eq_self_iff_true]
  constructor <;> omega

lemma cna_shape_stride2 (m : ConvNormActivation) (n c h w h2 w2 : ℤ)
    (hc : c = m.in_channels) (hstr : m.stride = 2)
    (hpad : 2 * m.padding = m.dilation * (m.kernel_size - 1))
    (hh : h = 2 * h2) (hw : w = 2 * w2) (hh1 : 1 ≤ h2) (hw1 : 1 ≤ w2) :
    m.outShape ⟨n, c, h, w⟩ = some ⟨n, m.out_channels, h2, w2⟩ := by
  unfold ConvNormActivation.outShape convOutDim
  dsimp only
  rw [hstr]
  generalize hD : m.dilation * (m.kernel_size - 1) = D at hpad ⊢
  have hcond : c = m.in_channels ∧ (0 : ℤ) < 2 ∧
      0 ≤ h + 2 * m.padding - D - 1 ∧ 0 ≤ w + 2 * m.padding - D - 1 :=
    ⟨hc, by norm_num, by omega, by omega⟩
  rw [if_pos hcond]
  simp only [Option.some.injEq, Shape.mk.injEq, true_and, eq_self_iff_true]
  constructor <;> omega

lemma se_step (c q n cc h w : ℤ) (hc : cc = c) :
    IRLayer.outShape (IRLayer.se c q) ⟨n, cc, h, w⟩ = some ⟨n, cc, h, w⟩ := by
  simp only [IRLayer.outShape]
  rw [if_pos hc]

/-- C5: at the default hyperparameters, for any `num_classes ≥ 1` and
input shape `[B, 3, H, W]` with `H, W ≥ 32` and divisible by the
network's total stride, the total stride is 32 and `forward` produces a
`[B, num_classes]` output. -/
theorem forward_output_shape (num_classes : ℤ) (hnc : 1 ≤ num_classes)
    (dropout : ℚ) (m : MobileNetV3Small)
    (hm : MobileNetV3Small.make num_classes 1 dropout false false = Except.ok m)
    (B H W : ℤ) (hH : m.totalStride ∣ H) (hW : m.totalStride ∣ W)
    (hH32 : 32 ≤ H) (hW32 : 32 ≤ W) :
    m.totalStride = 32 ∧
    m.forwardShape { n := B, c := 3, h := H, w := W } = some (B, num_classes) := by
  rw [make_default_eval] at hm
  injection hm with hm
  subst hm
  have htot : (net1 num_classes dropout).totalStride = 32 := by
    norm_num [MobileNetV3Small.totalStride, net1, FeatureLayer.strideOf,
      IRLayer.strideOf, stemLit, blk0, blk1, blk2, blk3, blk4, blk6, blk7,
      blk8, blk9, tailLit]
  refine ⟨htot, ?_⟩
  rw [htot] at hH hW
  obtain ⟨a, rfl⟩ := hH
  obtain ⟨b, rfl⟩ := hW
  have ha : 1 ≤ a := by omega
  have hb : 1 ≤ b := by omega
  have h0 : ConvNormActivation.outShape stemLit ⟨B, 3, 32 * a, 32 * b⟩ =
      some ⟨B, 16, 16 * a, 16 * b⟩ :=
    cna_shape_stride2 _ _ _ _ _ (16 * a) (16 * b) rfl rfl (by norm_num [stemLit])
      (by ring) (by ring) (by omega) (by omega)
  have hb0 : InvertedResidual.outShape blk0 ⟨B, 16, 16 * a, 16 * b⟩ =
      some ⟨B, 16, 8 * a, 8 * b⟩ := by
    have d1 : ConvNormActivation.outShape
        ⟨16, 16, 3, 2, 1, 1, 16, true, some ActKind.relu, false⟩
        ⟨B, 16, 16 * a, 16 * b⟩ = some ⟨B, 16, 8 * a, 8 * b⟩ :=
      cna_shape_stride2 _ _ _ _ _ (8 * a) (8 * b) rfl rfl (by norm_num)
        (by ring) (by ring) (by omega) (by omega)
    have d2 : IRLayer.outShape (IRLayer.se 16 8) ⟨B, 16, 8 * a, 8 * b⟩ =
        some ⟨B, 16, 8 * a, 8 * b⟩ := se_step _ _ _ _ _ _ rfl
    have d3 : ConvNormActivation.outShape
        ⟨16, 16, 1, 1, 0, 1, 1, true, none, false⟩
        ⟨B, 16, 8 * a, 8 * b⟩ = some ⟨B, 16, 8 * a, 8 * b⟩ :=
      cna_shape_stride1 _ _ _ _ _ rfl rfl (by norm_num) (by omega) (by omega)
    simp [InvertedResidual.outShape, blk0, irSeqShape, IRLayer.outShape, d1, d2, d3]
  have hb1 : InvertedResidual.outShape blk1 ⟨B, 16, 8 * a, 8 * b⟩ =
      some ⟨B, 24, 4 * a, 4 * b⟩ := by
    have d1 : ConvNormActivation.outShape
        ⟨16, 72, 1, 1, 0, 1, 1, true, some ActKind.relu, false⟩
        ⟨B, 16, 8 * a, 8 * b⟩ = some ⟨B, 72, 8 * a, 8 * b⟩ :=
      cna_shape_stride1 _ _ _ _ _ rfl rfl (by norm_num) (by omega) (by omega)
    have d2 : ConvNormActivation.outShape
        ⟨72, 72, 3, 2, 1, 1, 72, true, some ActKind.relu, false⟩
        ⟨B, 72, 8 * a, 8 * b⟩ = some ⟨B, 72, 4 * a, 4 * b⟩ :=
      cna_shape_stride2 _ _ _ _ _ (4 * a) (4 * b) rfl rfl (by norm_num)
        (by ring) (by ring) (by omega) (by omega)
    have d3 : ConvNormActivation.outShape
        ⟨72, 24, 1, 1, 0, 1, 1, true, none, false⟩
        ⟨B, 72, 4 * a, 4 * b⟩ = some ⟨B, 24, 4 * a, 4 * b⟩ :=
      cna_shape_stride1 _ _ _ _ _ rfl rfl (by norm_num) (by omega) (by omega)
    simp [InvertedResidual.outShape, blk1, irSeqShape, IRLayer.outShape, d1, d2, d3]
  have hb2 : InvertedResidual.outShape blk2 ⟨B, 24, 4 * a, 4 * b⟩ =
      some ⟨B, 24, 4 * a, 4 * b⟩ := by
    have d1 : ConvNormActivation.outShape
        ⟨24, 88, 1, 1, 0, 1, 1, true, some ActKind.relu, false⟩
        ⟨B, 24, 4 * a, 4 * b⟩ = some ⟨B, 88, 4 * a, 4 * b⟩ :=
      cna_shape_stride1 _ _ _ _ _ rfl rfl (by norm_num) (by omega) (by omega)
    have d2 : ConvNormActivation.outShape
        ⟨88, 88, 3, 1, 1, 1, 88, true, some ActKind.relu, false⟩
        ⟨B, 88, 4 * a, 4 * b⟩ = some ⟨B, 88, 4 * a, 4 * b⟩ :=
      cna_shape_stride1 _ _ _ _ _ rfl rfl (by norm_num) (by omega) (by omega)
    have d3 : ConvNormActivation.outShape
        ⟨88, 24, 1, 1, 0, 1, 1, true, none, false⟩
        ⟨B, 88, 4 * a, 4 * b⟩ = some ⟨B, 24, 4 * a, 4 * b⟩ :=
      cna_shape_stride1 _ _ _ _ _ rfl rfl (by norm_num) (by omega) (by omega)
    simp [InvertedResidual.outShape, blk2, irSeqShape, IRLayer.outShape, d1, d2, d3]
  have hb3 : InvertedResidual.outShape blk3 ⟨B, 24, 4 * a, 4 * b⟩ =
      some ⟨B, 40, 2 * a, 2 * b⟩ := by
    have d1 : ConvNormActivation.outShape
        ⟨24, 96, 1, 1, 0, 1, 1, true, some ActKind.hardswish, false⟩
        ⟨B, 24, 4 * a, 4 * b⟩ = some ⟨B, 96, 4 * a, 4 * b⟩ :=
      cna_shape_stride1 _ _ _ _ _ rfl rfl (by norm_num) (by omega) (by omega)
    have d2 : ConvNormActivation.outShape
        ⟨96, 96, 5, 2, 2, 1, 96, true, some ActKind.hardswish, false⟩
        ⟨B, 96, 4 * a, 4 * b⟩ = some ⟨B, 96, 2 * a, 2 * b⟩ :=
      cna_shape_stride2 _ _ _ _ _ (2 * a) (2 * b) rfl rfl (by norm_num)
        (by ring) (by ring) (by omega) (by omega)
    have d3 : IRLayer.outShape (IRLayer.se 96 24) ⟨B, 96, 2 * a, 2 * b⟩ =
        some ⟨B, 96, 2 * a, 2 * b⟩ := se_step _ _ _ _ _ _ rfl
    have d4 : ConvNormActivation.outShape
        ⟨96, 40, 1, 1, 0, 1, 1, true, none, false⟩
        ⟨B, 96, 2 * a, 2 * b⟩ = some ⟨B, 40, 2 * a, 2 * b⟩ :=
      cna_shape_stride1 _ _ _ _ _ rfl rfl (by norm_num) (by omega) (by omega)
    simp [InvertedResidual.outShape, blk3, irSeqShape, IRLayer.outShape, d1, d2, d3, d4]
  have hb4 : InvertedResidual.outShape blk4 ⟨B, 40, 2 * a, 2 * b⟩ =
      some ⟨B, 40, 2 * a, 2 * b⟩ := by
    have d1 : ConvNormActivation.outShape
        ⟨40, 240, 1, 1, 0, 1, 1, true, some ActKind.hardswish, false⟩
        ⟨B, 40, 2 * a, 2 * b⟩ = some ⟨B, 240, 2 * a, 2 * b⟩ :=
      cna_shape_stride1 _ _ _ _ _ rfl rfl (by norm_num) (by omega) (by omega)
    have d2 : ConvNormActivation.outShape
        ⟨240, 240, 5, 1, 2, 1, 240, true, some ActKind.hardswish, false⟩
        ⟨B, 240, 2 * a, 2 * b⟩ = some ⟨B, 240, 2 * a, 2 * b⟩ :=
      cna_shape_stride1 _ _ _ _ _ rfl rfl (by norm_num) (by omega) (by omega)
    have d3 : IRLayer.outShape (IRLayer.se 240 64) ⟨B, 240, 2 * a, 2 * b⟩ =
        some ⟨B, 240, 2 * a, 2 * b⟩ := se_step _ _ _ _ _ _ rfl
    have d4 : ConvNormActivation.outShape
        ⟨240, 40, 1, 1, 0, 1, 1, true, none, false⟩
        ⟨B, 240, 2 * a, 2 * b⟩ = some ⟨B, 40, 2 * a, 2 * b⟩ :=
      cna_shape_stride1 _ _ _ _ _ rfl rfl (by norm_num) (by omega) (by omega)
    simp [InvertedResidual.outShape, blk4, irSeqShape, IRLayer.outShape, d1, d2, d3, d4]
  have hb6 : InvertedResidual.outShape blk6 ⟨B, 40, 2 * a, 2 * b⟩ =
      some ⟨B, 48, 2 * a, 2 * b⟩ := by
    have d1 : ConvNormActivation.outShape
        ⟨40, 120, 1, 1, 0, 1, 1, true, some ActKind.hardswish, false⟩
        ⟨B, 40, 2 * a, 2 * b⟩ = some ⟨B, 120, 2 * a, 2 * b⟩ :=
      cna_shape_stride1 _ _ _ _ _ rfl rfl (by norm_num) (by omega) (by omega)
    have d2 : ConvNormActivation.outShape
        ⟨120, 120, 5, 1, 2, 1, 120, true, some ActKind.hardswish, false⟩
        ⟨B, 120, 2 * a, 2 * b⟩ = some ⟨B, 120, 2 * a, 2 * b⟩ :=
      cna_shape_stride1 _ _ _ _ _ rfl rfl (by norm_num) (by omega) (by omega)
    have d3 : IRLayer.outShape (IRLayer.se 120 32) ⟨B, 120, 2 * a, 2 * b⟩ =
        some ⟨B, 120, 2 * a, 2 * b⟩ := se_step _ _ _ _ _ _ rfl
    have d4 : ConvNormActivation.outShape
        ⟨120, 48, 1, 1, 0, 1, 1, true, none, false⟩
        ⟨B, 120, 2 * a, 2 * b⟩ = some ⟨B, 48, 2 * a, 2 * b⟩ :=
      cna_shape_stride1 _ _ _ _ _ rfl rfl (by norm_num) (by omega) (by omega)
    simp [InvertedResidual.outShape, blk6, irSeqShape, IRLayer.outShape, d1, d2, d3, d4]
  have hb7 : InvertedResidual.outShape blk7 ⟨B, 48, 2 * a, 2 * b⟩ =
      some ⟨B, 48, 2 * a, 2 * b⟩ := by
    have d1 : ConvNormActivation.outShape
        ⟨48, 144, 1, 1, 0, 1, 1, true, some ActKind.hardswish, false⟩
        ⟨B, 48, 2 * a, 2 * b⟩ = some ⟨B, 144, 2 * a, 2 * b⟩ :=
      cna_shape_stride1 _ _ _ _ _ rfl rfl (by norm_num) (by omega) (by omega)
    have d2 : ConvNormActivation.outShape
        ⟨144, 144, 5, 1, 2, 1, 144, true, some ActKind.hardswish, false⟩
        ⟨B, 144, 2 * a, 2 * b⟩ = some ⟨B, 144, 2 * a, 2 * b⟩ :=
      cna_shape_stride1 _ _ _ _ _ rfl rfl (by norm_num) (by omega) (by omega)
    have d3 : IRLayer.outShape (IRLayer.se 144 40) ⟨B, 144, 2 * a, 2 * b⟩ =
        some ⟨B, 144, 2 * a, 2 * b⟩ := se_step _ _ _ _ _ _ rfl
    have d4 : ConvNormActivation.outShape
        ⟨144, 48, 1, 1, 0, 1, 1, true, none, false⟩
        ⟨B, 144, 2 * a, 2 * b⟩ = some ⟨B, 48, 2 * a, 2 * b⟩ :=
      cna_shape_stride1 _ _ _ _ _ rfl rfl (by norm_num) (by omega) (by omega)
    simp [InvertedResidual.outShape, blk7, irSeqShape, IRLayer.outShape, d1, d2, d3, d4]
  have hb8 : InvertedResidual.outShape blk8 ⟨B, 48, 2 * a, 2 * b⟩ =
      some ⟨B, 96, a, b⟩ := by
    have d1 : ConvNormActivation.outShape
        ⟨48, 288, 1, 1, 0, 1, 1, true, some ActKind.hardswish, false⟩
        ⟨B, 48, 2 * a, 2 * b⟩ = some ⟨B, 288, 2 * a, 2 * b⟩ :=
      cna_shape_stride1 _ _ _ _ _ rfl rfl (by norm_num) (by omega) (by omega)
    have d2 : ConvNormActivation.outShape
        ⟨288, 288, 5, 2, 2, 1, 288, true, some ActKind.hardswish, false⟩
        ⟨B, 288, 2 * a, 2 * b⟩ = some ⟨B, 288, a, b⟩ :=
      cna_shape_stride2 _ _ _ _ _ a b rfl rfl (by norm_num)
        (by ring) (by ring) (by omega) (by omega)
    have d3 : IRLayer.outShape (IRLayer.se 288 72) ⟨B, 288, a, b⟩ =
        some ⟨B, 288, a, b⟩ := se_step _ _ _ _ _ _ rfl
    have d4 : ConvNormActivation.outShape
        ⟨288, 96, 1, 1, 0, 1, 1, true, none, false⟩
        ⟨B, 288, a, b⟩ = some ⟨B, 96, a, b⟩ :=
      cna_shape_stride1 _ _ _ _ _ rfl rfl (by norm_num) (by omega) (by omega)
    simp [InvertedResidual.outShape, blk8, irSeqShape, IRLayer.outShape, d1, d2, d3, d4]
  have hb9 : InvertedResidual.outShape blk9 ⟨B, 96, a, b⟩ =
      some ⟨B, 96, a, b⟩ := by
    have d1 : ConvNormActivation.outShape
        ⟨96, 576, 1, 1, 0, 1, 1, true, some ActKind.hardswish, false⟩
        ⟨B, 96, a, b⟩ = some ⟨B, 576, a, b⟩ :=
      cna_shape_stride1 _ _ _ _ _ rfl rfl (by norm_num) (by omega) (by omega)
    have d2 : ConvNormActivation.outShape
        ⟨576, 576, 5, 1, 2, 1, 576, true, some ActKind.hardswish, false⟩
        ⟨B, 576, a, b⟩ = some ⟨B, 576, a, b⟩ :=
      cna_shape_stride1 _ _ _ _ _ rfl rfl (by norm_num) (by omega) (by omega)
    have d3 : IRLayer.outShape (IRLayer.se 576 144) ⟨B, 576, a, b⟩ =
        some ⟨B, 576, a, b⟩ := se_step _ _ _ _ _ _ rfl
    have d4 : ConvNormActivation.outShape
        ⟨576, 96, 1, 1, 0, 1, 1, true, none, false⟩
        ⟨B, 576, a, b⟩ = some ⟨B, 96, a, b⟩ :=
      cna_shape_stride1 _ _ _ _ _ rfl rfl (by norm_num) (by omega) (by omega)
    simp [InvertedResidual.outShape, blk9, irSeqShape, IRLayer.outShape, d1, d2, d3, d4]
  have htail : ConvNormActivation.outShape tailLit ⟨B, 96, a, b⟩ =
      some ⟨B, 576, a, b⟩ :=
    cna_shape_stride1 _ _ _ _ _ rfl rfl (by norm_num [tailLit]) (by omega) (by omega)
  have hf : featuresShape (net1 num_classes dropout).features ⟨B, 3, 32 * a, 32 * b⟩ =
      some ⟨B, 576, a, b⟩ := by
    simp only [net1, featuresShape, FeatureLayer.outShape, Option.some_bind,
      h0, hb0, hb1, hb2, hb3, hb4, hb6, hb7, hb8, hb9, htail]
  unfold MobileNetV3Small.forwardShape
  rw [hf]
  simp only [Option.some_bind]
  rw [if_pos (show (1 : ℤ) ≤ a ∧ (1 : ℤ) ≤ b from ⟨ha, hb⟩)]
  norm_num [net1, classifierShape]

/-- Witness for C5 at `num_classes = 10`, `B = 1`, `H = W = 32`. -/
theorem forward_output_shape_w :
    netD.totalStride = 32 ∧
      netD.forwardShape { n := 1, c := 3, h := 32, w := 32 } = some (1, 10) := by
  have hD : netD = net1 10 (1 / 5) := by
    have h2 := make_default_eval 10 (1 / 5)
    have h3 : (Except.ok netD : Except String MobileNetV3Small) =
        Except.ok (net1 10 (1 / 5)) := by
      rw [← h2]
      rfl
    injection h3
  have hstride : netD.totalStride = 32 := by
    rw [hD]
    norm_num [MobileNetV3Small.totalStride, net1, FeatureLayer.strideOf,
      IRLayer.strideOf, stemLit, blk0, blk1, blk2, blk3, blk4, blk6, blk7,
      blk8, blk9, tailLit]
  exact forward_output_shape 10 (by norm_num) (1 / 5) netD rfl 1 32 32
    (by rw [hstride]) (by rw [hstride]) (by norm_num) (by norm_num)

/-- Witness for C10 at `width_mult = 1`, both flags off. -/
theorem schedule_chain_consistent_w :
    List.Chain' (fun a b => a.out_channels = b.input_channels)
      (invertedResidualSetting false false 1) :=
  (schedule_chain_consistent 1 (by norm_num) false false 10 (1 / 5) netD rfl).1

end MV3
